import Mathlib

/-!
Verification of the lassie-event-recorder in-memory aggregation core.

This file gives a shallow embedding of the repository's per-retrieval
aggregation engine and settles the frozen claims about it:

* `metrics/tempdata` (concatenated into `src/cmd/stats/main.go` in the
  source snapshot): the `TempData` record with its atomic first-write-wins
  and accumulating fields, the `TempDataMap` state table with its
  `sync.Pool` recycling and one-minute eviction timer.
* `src/metrics/events.go`: the event handlers (`HandleFailureEvent`,
  `HandleStartedEvent`, `HandleCandidatesFoundEvent`,
  `HandleCandidatesFilteredEvent`, `HandleTimeToFirstByteEvent`,
  `HandleSuccessEvent`, `HandleAggregatedEvent`) and the error-message
  classifier `getMatchingErrorMetric`.

Modelling conventions:
* `time.Time` values are represented by their `UnixMicro` value as an
  unbounded `Int`; the Go conversions `uint64(t.UnixMicro())` and
  `time.UnixMicro(int64(u))` are `u64ofMicros` and `i64ofU64` below,
  with the wrap-around made explicit.
* Machine integers (`uint32`, `uint64`) are `Nat` with an explicit
  `% 2 ^ 32` (resp. `% 2 ^ 64`) wherever the source can overflow.
* The metrics sink is modelled as the list of emitted updates
  (`MetricOp`): an `add` of 1 to a counter, or a `record` of a sample
  into a histogram, each with its attribute tags.  Durations that the
  source records in (float64) seconds are recorded here as the exact
  microsecond count; the rescaling by 10^6 is injective on the modelled
  grid and no claim depends on the unit.
* Go map iteration order is unspecified; functions that iterate a map
  (`getMatchingErrorMetric`, the attempts loop of
  `HandleAggregatedEvent`) take the iteration order as an explicit
  parameter.
* The wall clock from which `time.AfterFunc` arms an eviction timer is
  passed to the state-table operations as an explicit `now` argument;
  the eviction deadline is stored next to the entry.
-/

/-- `uint64(t.UnixMicro())`: an `int64` microsecond timestamp stored into a
`uint64` field (two's-complement reinterpretation). -/
def u64ofMicros (t : Int) : Nat := (t % (2 ^ 64)).toNat

/-- `time.UnixMicro(int64(u))`: read a `uint64` field back as an `int64`
microsecond timestamp. -/
def i64ofU64 (n : Nat) : Int := if n < 2 ^ 63 then (n : Int) else (n : Int) - 2 ^ 64

/-- `uint32(x)` applied to a nonnegative in-range numeric payload value
(the source casts a `float64` JSON number to `uint32`). -/
def u32ofInt (n : Int) : Nat := n.toNat % 2 ^ 32

/-- The `TempData` struct of the tempdata package: one in-flight
retrieval's mutable aggregation state.  `lastStage` is declared in the
source but never written; the `timer` pointer is represented by the
deadline stored in the enclosing map entry. -/
structure TempData where
  lastStage : Nat
  startTime : Nat
  indexerCandidates : Nat
  indexerCandidateFirstResultTime : Nat
  indexerFiltered : Nat
  bitswapAttempt : Nat
  graphsyncAttempt : Nat
  ttfbTime : Nat
  failedCount : Nat
deriving DecidableEq

/-- The zero value `new(TempData)` produced by the pool's `New`. -/
def TempData.zero : TempData := ⟨0, 0, 0, 0, 0, 0, 0, 0, 0⟩

/-- `RecordStartTime`: `atomic.CompareAndSwapUint64(&t.startTime, 0, uint64(startTime.UnixMicro()))`. -/
def TempData.RecordStartTime (t : TempData) (startTime : Int) : TempData × Bool :=
  if t.startTime = 0 then ({ t with startTime := u64ofMicros startTime }, true) else (t, false)

/-- `StartTime()`: `time.UnixMicro(int64(atomic.LoadUint64(&t.startTime)))`, in microseconds. -/
def TempData.startTimeMicros (t : TempData) : Int := i64ofU64 t.startTime

/-- `RecordIndexerCandidates`: CAS the count from 0 to `candidatesFound`
(also storing the first-result time) or else accumulate. -/
def TempData.RecordIndexerCandidates (t : TempData) (eventTime : Int) (candidatesFound : Nat) :
    TempData × Bool :=
  if t.indexerCandidates = 0 then
    ({ t with indexerCandidates := candidatesFound % 2 ^ 32,
              indexerCandidateFirstResultTime := u64ofMicros eventTime }, true)
  else
    ({ t with indexerCandidates := (t.indexerCandidates + candidatesFound) % 2 ^ 32 }, false)

/-- `RecordIndexerFilteredCandidates`: CAS from 0 or else accumulate. -/
def TempData.RecordIndexerFilteredCandidates (t : TempData) (candidatesFoundFiltered : Nat) :
    TempData × Bool :=
  if t.indexerFiltered = 0 then
    ({ t with indexerFiltered := candidatesFoundFiltered % 2 ^ 32 }, true)
  else
    ({ t with indexerFiltered := (t.indexerFiltered + candidatesFoundFiltered) % 2 ^ 32 }, false)

/-- `RecordBitswapAttempt`: `atomic.CompareAndSwapUint32(&t.bitswapAttempt, 0, 1)`. -/
def TempData.RecordBitswapAttempt (t : TempData) : TempData × Bool :=
  if t.bitswapAttempt = 0 then ({ t with bitswapAttempt := 1 }, true) else (t, false)

/-- `RecordGraphsyncAttempt`: `atomic.CompareAndSwapUint32(&t.graphsyncAttempt, 0, 1)`. -/
def TempData.RecordGraphsyncAttempt (t : TempData) : TempData × Bool :=
  if t.graphsyncAttempt = 0 then ({ t with graphsyncAttempt := 1 }, true) else (t, false)

/-- `RecordTimeToFirstByte`: `atomic.CompareAndSwapUint64(&t.ttfbTime, 0, uint64(ttfbTime.UnixMicro()))`. -/
def TempData.RecordTimeToFirstByte (t : TempData) (ttfbTime : Int) : TempData × Bool :=
  if t.ttfbTime = 0 then ({ t with ttfbTime := u64ofMicros ttfbTime }, true) else (t, false)

/-- `RecordFailure`: CAS the count from 0 to 1, or else add 1. -/
def TempData.RecordFailure (t : TempData) : TempData × Bool :=
  if t.failedCount = 0 then ({ t with failedCount := 1 }, true)
  else ({ t with failedCount := (t.failedCount + 1) % 2 ^ 32 }, false)

/-- The `FinalValues` snapshot computed at finalize time. -/
structure FinalValues where
  StartTime : Int
  IndexerCandidates : Nat
  IndexerCandidateFirstResultTime : Int
  IndexerFiltered : Nat
  HasBitswapAttempt : Bool
  HasGraphSyncAttempt : Bool
  TimeToFirstByte : Int
  FailedCount : Nat
deriving DecidableEq

/-- `finalValues()`: load every field into the immutable snapshot. -/
def TempData.finalValues (t : TempData) : FinalValues :=
  { StartTime := i64ofU64 t.startTime
    IndexerCandidates := t.indexerCandidates
    IndexerCandidateFirstResultTime := i64ofU64 t.indexerCandidateFirstResultTime
    IndexerFiltered := t.indexerFiltered
    HasBitswapAttempt := decide (0 < t.bitswapAttempt)
    HasGraphSyncAttempt := decide (0 < t.graphsyncAttempt)
    TimeToFirstByte := i64ofU64 t.ttfbTime
    FailedCount := t.failedCount }

/-- `zeroOut()`: store 0 into each of the eight recorded fields before the
object is returned to the pool.  The source does not touch `lastStage`
(nor the `timer` pointer), which this definition mirrors. -/
def TempData.zeroOut (t : TempData) : TempData :=
  { t with startTime := 0, indexerCandidates := 0, indexerCandidateFirstResultTime := 0,
           indexerFiltered := 0, bitswapAttempt := 0, graphsyncAttempt := 0,
           ttfbTime := 0, failedCount := 0 }

/-- `const timeout = 1 * time.Minute`, in microseconds. -/
def timeout : Int := 60 * 1000000

/-- The `TempDataMap`: the concurrent state table (`sync.Map`) together
with the recycling pool (`tempDataPool`, modelled as a stack; `Get` on an
empty stack allocates a fresh zero object, as the pool's `New` does).
Each live entry carries its eviction deadline (the `time.AfterFunc`
timer armed at insertion). -/
structure TempDataMap where
  entries : String → Option (TempData × Int)
  pool : List TempData

/-- `GetOrCreate`: pool-get a candidate object, `LoadOrStore` it; if the
id was already present the candidate is put back (pool unchanged) and the
existing entry is returned; otherwise the candidate is registered and its
eviction timer is armed for `now + timeout`. -/
def TempDataMap.GetOrCreate (m : TempDataMap) (id : String) (now : Int) :
    TempData × TempDataMap :=
  match m.entries id with
  | some e => (e.1, m)
  | none =>
      let newTempData := m.pool.headD TempData.zero
      (newTempData,
       ⟨fun k => if k = id then some (newTempData, now + timeout) else m.entries k,
        m.pool.tail⟩)

/-- `Delete`: `LoadAndDelete`; when the id is present, compute the
`finalValues` snapshot, zero the object out, recycle it into the pool and
return the snapshot; otherwise return nothing and leave the map as is. -/
def TempDataMap.Delete (m : TempDataMap) (id : String) : Option FinalValues × TempDataMap :=
  match m.entries id with
  | some e =>
      (some e.1.finalValues,
       ⟨fun k => if k = id then none else m.entries k, e.1.zeroOut :: m.pool⟩)
  | none => (none, m)

/-- Write a mutated `TempData` back through the entry's pointer (Go
mutates in place); the eviction deadline of the entry is untouched. -/
def TempDataMap.setData (m : TempDataMap) (id : String) (d : TempData) : TempDataMap :=
  ⟨fun k => if k = id then (m.entries id).map (fun e => (d, e.2)) else m.entries k, m.pool⟩

/-- A helper: the sequence of `RecordStartTime` calls made by repeated
`started` events, returning the final state and each call's `first` flag. -/
def recordStartTimeRuns (d : TempData) : List Int → TempData × List Bool
  | [] => (d, [])
  | t :: ts =>
      let r := d.RecordStartTime t
      let rest := recordStartTimeRuns r.1 ts
      (rest.1, r.2 :: rest.2)

/-- The mutations the program ever performs on a live `TempData`:
one constructor per `Record` method of the tempdata package. -/
inductive TDOp
  | rStart (t : Int)
  | rCand (t : Int) (c : Nat)
  | rFilt (c : Nat)
  | rBits
  | rGraph
  | rTTFB (t : Int)
  | rFail
deriving DecidableEq

/-- Apply one record operation (dropping its `first` result). -/
def applyTDOp (op : TDOp) (d : TempData) : TempData :=
  match op with
  | .rStart t => (d.RecordStartTime t).1
  | .rCand t c => (d.RecordIndexerCandidates t c).1
  | .rFilt c => (d.RecordIndexerFilteredCandidates c).1
  | .rBits => (d.RecordBitswapAttempt).1
  | .rGraph => (d.RecordGraphsyncAttempt).1
  | .rTTFB t => (d.RecordTimeToFirstByte t).1
  | .rFail => (d.RecordFailure).1

/-- A history of record operations applied to one state object. -/
def applyTDOps (ops : List TDOp) (d : TempData) : TempData :=
  ops.foldl (fun d op => applyTDOp op d) d

/-- The operations a trace may perform on the state table between an
entry's creation and its eviction: get-or-create of any identifier, and a
record-method update written back through an entry's pointer.  (An update
for a missing identifier is preceded by its own `getOrCreate` in the
source, so it is a no-op here.) -/
inductive TOp
  | getOrCreate (id : String) (now : Int)
  | update (id : String) (op : TDOp)

def applyTOp (m : TempDataMap) : TOp → TempDataMap
  | .getOrCreate id now => (m.GetOrCreate id now).2
  | .update id op =>
      match m.entries id with
      | some e => m.setData id (applyTDOp op e.1)
      | none => m

def applyTOps (m : TempDataMap) (ops : List TOp) : TempDataMap :=
  ops.foldl applyTOp m

/-- The protocol tag strings of `src/metrics/events.go`. -/
def ProtocolBitswap : String := "bitswap"

def ProtocolGraphsync : String := "graphsync"

def ProtocolHttp : String := "http"

/-- `types.BitswapIndentifier` from the lassie library (see the repo's
tests, which use the literal "Bitswap" as the bitswap storage-provider
identifier). -/
def BitswapIndentifier : String := "Bitswap"

/-- `multicodec.TransportBitswap.String()`. -/
def TransportBitswapName : String := "transport-bitswap"

/-- `multicodec.TransportGraphsyncFilecoinv1.String()`. -/
def TransportGraphsyncFilecoinv1Name : String := "transport-graphsync-filecoinv1"

/-- `multicodec.TransportIpfsGatewayHttp.String()`. -/
def TransportIpfsGatewayHttpName : String := "transport-ipfs-gateway-http"

/-- `protocolFromSpID`: bitswap for the bitswap identifier, graphsync for
everything else. -/
def protocolFromSpID (storageProviderId : String) : String :=
  if storageProviderId = BitswapIndentifier then ProtocolBitswap else ProtocolGraphsync

/-- `protocolFromMulticodecString`: the switch over the three transport
codec names, defaulting to the input string itself. -/
def protocolFromMulticodecString (multicodecCodeString : String) : String :=
  if multicodecCodeString = TransportBitswapName then ProtocolBitswap
  else if multicodecCodeString = TransportGraphsyncFilecoinv1Name then ProtocolGraphsync
  else if multicodecCodeString = TransportIpfsGatewayHttpName then ProtocolHttp
  else multicodecCodeString

/-- Character-list prefix test (used to model `strings.Contains`). -/
def listStartsWith : List Char → List Char → Bool
  | [], _ => true
  | _ :: _, [] => false
  | a :: as, b :: bs => a == b && listStartsWith as bs

/-- Does `msg` contain `pat` as a contiguous substring (`strings.Contains msg pat`)? -/
def listContainsSub (pat : List Char) : List Char → Bool
  | [] => pat.isEmpty
  | c :: rest => listStartsWith pat (c :: rest) || listContainsSub pat rest

/-- `strings.Contains(msg, substr)`. -/
def stringsContains (msg pat : String) : Bool := listContainsSub pat.data msg.data

/-- The error categories: one per specific error counter of the metrics
sink (`retrievalError...Count`). -/
inductive ErrCat
  | rejected
  | tooMany
  | acl
  | maintenance
  | noOnline
  | unconfirmed
  | timedOut
  | noUnsealed
  | dagstore
  | graphsyncFailed
  | failedToDial
deriving DecidableEq

/-- The `errorMetricMatches` table of `getMatchingErrorMetric`, in the
textual order of the source's map literal.  In Go this is a `map` literal,
so the iteration order the loop actually sees is NOT this (or any fixed)
order; `getMatchingErrorMetric` below therefore takes the iteration order
as a parameter ranging over the permutations of this list. -/
def errorMetricMatches : List (String × ErrCat) :=
  [("response rejected", ErrCat.rejected),
   ("Too many retrieval deals received", ErrCat.tooMany),
   ("Access Control", ErrCat.acl),
   ("Under maintenance, retry later", ErrCat.maintenance),
   ("miner is not accepting online retrieval deals", ErrCat.noOnline),
   ("unconfirmed block transfer", ErrCat.unconfirmed),
   ("timeout after ", ErrCat.timedOut),
   ("there is no unsealed piece containing payload cid", ErrCat.noUnsealed),
   ("getting pieces for cid", ErrCat.dagstore),
   ("graphsync request failed to complete: request failed - unknown reason", ErrCat.graphsyncFailed),
   ("failed to dial", ErrCat.failedToDial)]

/-- `getMatchingErrorMetric`: scan the (substring, counter) pairs in the
iteration order the runtime happens to produce and return the first whose
substring the message contains; `none` routes to the "other" counter. -/
def getMatchingErrorMetric (iterationOrder : List (String × ErrCat)) (msg : String) :
    Option ErrCat :=
  (iterationOrder.find? (fun p => stringsContains msg p.1)).map Prod.snd

/-- The metric instruments touched by the claims (counters and
histograms of the `stats` struct). -/
inductive MName
  | totalRequestCount
  | requestWithIndexerFailures
  | requestWithIndexerCandidatesCount
  | requestWithIndexerCandidatesFilteredCount
  | requestWithBitswapAttempt
  | requestWithGraphSyncAttempt
  | requestWithHttpAttempt
  | requestWithFirstByteReceivedCount
  | requestWithSuccessCount
  | requestWithBitswapSuccessCount
  | requestWithGraphSyncSuccessCount
  | requestWithHttpSuccessCount
  | graphsyncRetrievalFailureCount
  | httpRetrievalFailureCount
  | timeToFirstIndexerResult
  | timeToFirstByte
  | retrievalDealDuration
  | bandwidthBytesPerSecond
  | retrievalDealSize
  | errCounter (c : ErrCat)
  | retrievalErrorOtherCount
  | indexerCandidatesPerRequestCount
  | indexerCandidatesFilteredPerRequestCount
  | failedRetrievalsPerRequestCount
deriving DecidableEq

/-- Attribute tags attached to a metric update. -/
inductive Tag
  | spId (s : String)
  | protocol (s : String)
deriving DecidableEq

/-- One call into the metrics sink: `counter.Add(ctx, 1, tags...)` or
`histogram.Record(ctx, v, tags...)`. -/
inductive MetricOp
  | add (name : MName) (tags : List Tag)
  | record (name : MName) (value : Int) (tags : List Tag)
deriving DecidableEq

def MetricOp.name : MetricOp → MName
  | .add n _ => n
  | .record n _ _ => n

/-- The updates in `ops` touching the instrument `n`. -/
def opsNamed (n : MName) (ops : List MetricOp) : List MetricOp :=
  ops.filter (fun op => decide (op.name = n))

def Tag.protocolValues : List Tag → List String
  | [] => []
  | Tag.protocol s :: rest => s :: Tag.protocolValues rest
  | _ :: rest => Tag.protocolValues rest

def MetricOp.protocolValues : MetricOp → List String
  | .add _ tags => Tag.protocolValues tags
  | .record _ _ tags => Tag.protocolValues tags

/-- Every protocol-tag value appearing in a list of metric updates. -/
def opsProtocolValues : List MetricOp → List String
  | [] => []
  | op :: rest => op.protocolValues ++ opsProtocolValues rest

/-- The dynamic detail payload: `details interface{}` is either not a
JSON object (`none`) or a field map whose values are strings, numbers or
something else.  Numbers carry the integral `float64` values the claims
exercise. -/
inductive JVal
  | str (s : String)
  | num (n : Int)
  | other
deriving DecidableEq

abbrev Details := Option (List (String × JVal))

def getJField : List (String × JVal) → String → Option JVal
  | [], _ => none
  | (k, v) :: rest, key => if k = key then some v else getJField rest key

/-- `detailsObj, ok := details.(map[string]interface{})` followed by
`detailsObj[key].(string)`. -/
def detailsStr (det : Details) (key : String) : Option String :=
  match det with
  | some fields =>
      match getJField fields key with
      | some (JVal.str s) => some s
      | _ => none
  | none => none

/-- `detailsObj[key].(float64)`. -/
def detailsNum (det : Details) (key : String) : Option Int :=
  match det with
  | some fields =>
      match getJField fields key with
      | some (JVal.num n) => some n
      | _ => none
  | none => none

/-- `types.Phase`. -/
inductive Phase
  | IndexerPhase
  | QueryPhase
  | RetrievalPhase
deriving DecidableEq

/-- `int64(receivedSize / transferDuration)` computed by the source in
float64 seconds; modelled on the microsecond grid.  No claim constrains
this value. -/
def bandwidthSample (receivedSize durMicros : Int) : Int :=
  if durMicros = 0 then 0 else receivedSize * 1000000 / durMicros

/-- `HandleFailureEvent` (src/metrics/events.go lines 21-48).  `ord` is
the iteration order the runtime produces for the classifier's map; `now`
is the wall clock from which a created entry's timer would be armed. -/
def HandleFailureEvent (ord : List (String × ErrCat)) (m : TempDataMap) (now : Int)
    (id : String) (phase : Phase) (storageProviderID : String) (details : Details) :
    TempDataMap × List MetricOp :=
  match detailsStr details "error" with
  | none => (m, [])
  | some msg =>
    match phase with
    | Phase.IndexerPhase =>
        let p := m.GetOrCreate id now
        -- tempData.RecordFinality(): stops the timer; the deadline of a
        -- removed entry is irrelevant, no state change is needed here.
        let q := p.2.Delete id
        (q.2, [MetricOp.add MName.requestWithIndexerFailures []])
    | Phase.RetrievalPhase =>
        let gsOps := if storageProviderID ≠ BitswapIndentifier then
            [MetricOp.add MName.graphsyncRetrievalFailureCount [Tag.spId storageProviderID]]
          else []
        let protocol := protocolFromSpID storageProviderID
        let errOp := match getMatchingErrorMetric ord msg with
          | some c => MetricOp.add (MName.errCounter c) [Tag.protocol protocol]
          | none => MetricOp.add MName.retrievalErrorOtherCount [Tag.protocol protocol]
        (m, gsOps ++ [errOp])
    | Phase.QueryPhase => (m, [])

/-- `HandleStartedEvent` (src/metrics/events.go lines 50-67). -/
def HandleStartedEvent (m : TempDataMap) (now : Int) (id : String) (phase : Phase)
    (eventTime : Int) (storageProviderID : String) : TempDataMap × List MetricOp :=
  let p := m.GetOrCreate id now
  match phase with
  | Phase.IndexerPhase =>
      let r := p.1.RecordStartTime eventTime
      (p.2.setData id r.1, [MetricOp.add MName.totalRequestCount []])
  | Phase.RetrievalPhase =>
      if storageProviderID = BitswapIndentifier then
        let r := p.1.RecordBitswapAttempt
        (p.2.setData id r.1,
         if r.2 then [MetricOp.add MName.requestWithBitswapAttempt []] else [])
      else
        let r := p.1.RecordGraphsyncAttempt
        (p.2.setData id r.1,
         if r.2 then [MetricOp.add MName.requestWithGraphSyncAttempt [Tag.spId storageProviderID]]
         else [])
  | Phase.QueryPhase => (p.2, [])

/-- `HandleCandidatesFoundEvent` (src/metrics/events.go lines 69-87). -/
def HandleCandidatesFoundEvent (m : TempDataMap) (now : Int) (id : String) (eventTime : Int)
    (details : Details) : TempDataMap × List MetricOp :=
  match detailsNum details "candidateCount" with
  | none => (m, [])
  | some candidateCount =>
    if candidateCount > 0 then
      let p := m.GetOrCreate id now
      let r := p.1.RecordIndexerCandidates eventTime (u32ofInt candidateCount)
      let m2 := p.2.setData id r.1
      if r.2 then
        (m2, [MetricOp.add MName.requestWithIndexerCandidatesCount [],
              MetricOp.record MName.timeToFirstIndexerResult
                (eventTime - r.1.startTimeMicros) []])
      else (m2, [])
    else (m, [])

/-- `HandleCandidatesFilteredEvent` (src/metrics/events.go lines 89-106). -/
def HandleCandidatesFilteredEvent (m : TempDataMap) (now : Int) (id : String)
    (details : Details) : TempDataMap × List MetricOp :=
  match detailsNum details "candidateCount" with
  | none => (m, [])
  | some candidateCount =>
    if candidateCount > 0 then
      let p := m.GetOrCreate id now
      let r := p.1.RecordIndexerFilteredCandidates (u32ofInt candidateCount)
      let m2 := p.2.setData id r.1
      if r.2 then
        (m2, [MetricOp.add MName.requestWithIndexerCandidatesFilteredCount []])
      else (m2, [])
    else (m, [])

/-- `HandleTimeToFirstByteEvent` (src/metrics/events.go lines 108-114). -/
def HandleTimeToFirstByteEvent (m : TempDataMap) (now : Int) (id : String)
    (storageProviderId : String) (eventTime : Int) : TempDataMap × List MetricOp :=
  let p := m.GetOrCreate id now
  let r := p.1.RecordTimeToFirstByte eventTime
  let m2 := p.2.setData id r.1
  if r.2 then
    (m2, [MetricOp.add MName.requestWithFirstByteReceivedCount
            [Tag.protocol (protocolFromSpID storageProviderId)],
          MetricOp.record MName.timeToFirstByte (eventTime - r.1.startTimeMicros)
            [Tag.protocol (protocolFromSpID storageProviderId)]])
  else (m2, [])

/-- `HandleSuccessEvent` (src/metrics/events.go lines 116-147).  Note the
source returns before touching the state table when the payload is not a
map or lacks a float64 `receivedSize`.  `finalDetails` is the dereference
of the pointer `Delete` returns; after the preceding `GetOrCreate` it is
always non-nil, so the default never surfaces. -/
def HandleSuccessEvent (m : TempDataMap) (now : Int) (id : String) (eventTime : Int)
    (storageProviderId : String) (details : Details) : TempDataMap × List MetricOp :=
  match detailsNum details "receivedSize" with
  | none => (m, [])
  | some receivedSize =>
    let p := m.GetOrCreate id now
    -- tempData.RecordFinality(): timer stop, no state change.
    let q := p.2.Delete id
    let finalDetails := q.1.getD TempData.zero.finalValues
    (q.2,
     [MetricOp.add MName.requestWithSuccessCount []]
     ++ (if storageProviderId = BitswapIndentifier then
          [MetricOp.add MName.requestWithBitswapSuccessCount []]
        else
          [MetricOp.add MName.requestWithGraphSyncSuccessCount [Tag.spId storageProviderId]])
     ++ [MetricOp.record MName.retrievalDealDuration (eventTime - finalDetails.StartTime)
           [Tag.protocol (protocolFromSpID storageProviderId)],
         MetricOp.record MName.retrievalDealSize receivedSize
           [Tag.protocol (protocolFromSpID storageProviderId)],
         MetricOp.record MName.bandwidthBytesPerSecond
           (bandwidthSample receivedSize (eventTime - finalDetails.TimeToFirstByte))
           [Tag.protocol (protocolFromSpID storageProviderId)],
         MetricOp.record MName.indexerCandidatesPerRequestCount
           (Int.ofNat finalDetails.IndexerCandidates) [],
         MetricOp.record MName.indexerCandidatesFilteredPerRequestCount
           (Int.ofNat finalDetails.IndexerFiltered) [],
         MetricOp.record MName.failedRetrievalsPerRequestCount
           (Int.ofNat finalDetails.FailedCount) []])

/-- The `Attempt` struct of the aggregated path. -/
structure Attempt where
  Error : String
  Protocol : String
  TimeToFirstByte : Int
deriving DecidableEq

/-- The loop state of `HandleAggregatedEvent`'s attempts loop. -/
structure AggAcc where
  failureCount : Nat
  recordedGraphSync : Bool
  recordedBitswap : Bool
  recordedHttp : Bool
  lowestTTFB : Int
  lowestTTFBProtocol : String
  ops : List MetricOp

/-- One iteration of the attempts loop (src/metrics/events.go lines
173-210).  Note two quirks mirrored from the source: `failureCount += 0`
(the counter is never actually incremented), and `lowestTTFB` is compared
but never assigned. -/
def aggStep (ord : List (String × ErrCat)) (acc : AggAcc) (pr : String × Attempt) : AggAcc :=
  let storageProviderID := pr.1
  let attempt := pr.2
  let protocolAttempted := protocolFromMulticodecString attempt.Protocol
  let acc1 :=
    if protocolAttempted = ProtocolBitswap then
      (if acc.recordedBitswap then acc
       else { acc with
                recordedBitswap := true
                ops := acc.ops ++ [MetricOp.add MName.requestWithBitswapAttempt []] })
    else if protocolAttempted = ProtocolGraphsync then
      (if acc.recordedGraphSync then acc
       else { acc with
                recordedGraphSync := true
                ops := acc.ops ++ [MetricOp.add MName.requestWithGraphSyncAttempt
                                     [Tag.spId storageProviderID]] })
    else if protocolAttempted = ProtocolHttp then
      (if acc.recordedHttp then acc
       else { acc with
                recordedHttp := true
                ops := acc.ops ++ [MetricOp.add MName.requestWithHttpAttempt
                                     [Tag.spId storageProviderID]] })
    else acc
  let acc2 :=
    if attempt.Error ≠ "" then
      let acc1a :=
        if protocolAttempted = ProtocolGraphsync then
          { acc1 with ops := acc1.ops ++ [MetricOp.add MName.graphsyncRetrievalFailureCount
                                            [Tag.spId storageProviderID]] }
        else if protocolAttempted = ProtocolHttp then
          { acc1 with ops := acc1.ops ++ [MetricOp.add MName.httpRetrievalFailureCount
                                            [Tag.spId storageProviderID]] }
        else acc1
      let acc1b :=
        match getMatchingErrorMetric ord attempt.Error with
        | some c => { acc1a with ops := acc1a.ops ++ [MetricOp.add (MName.errCounter c)
                                                        [Tag.protocol protocolAttempted]] }
        | none => { acc1a with ops := acc1a.ops ++ [MetricOp.add MName.retrievalErrorOtherCount
                                                      [Tag.protocol protocolAttempted]] }
      -- source line 205: failureCount += 0
      { acc1b with failureCount := acc1b.failureCount + 0 }
    else acc1
  if attempt.TimeToFirstByte ≠ 0 ∧
      (acc2.lowestTTFB = 0 ∨ attempt.TimeToFirstByte < acc2.lowestTTFB) then
    { acc2 with lowestTTFBProtocol := protocolAttempted }
  else acc2

/-- `HandleAggregatedEvent` (src/metrics/events.go lines 155-248).  The
attempts map is given with its iteration order as a list of key-value
pairs. -/
def HandleAggregatedEvent (ord : List (String × ErrCat)) (timeToFirstIndexerResult : Int)
    (timeToFirstByte : Int) (success : Bool) (storageProviderID : String)
    (startTime endTime : Int) (bandwidth bytesTransferred : Int)
    (indexerCandidates indexerFiltered : Int)
    (attempts : List (String × Attempt)) (protocolSucceeded : String) : List MetricOp :=
  let acc := attempts.foldl (aggStep ord)
    ⟨0, false, false, false, 0, "",
     [MetricOp.add MName.totalRequestCount []]⟩
  let ops1 := acc.ops
    ++ (if timeToFirstIndexerResult > 0 then
          [MetricOp.record MName.timeToFirstIndexerResult timeToFirstIndexerResult []] else [])
    ++ (if indexerCandidates > 0 then
          [MetricOp.add MName.requestWithIndexerCandidatesCount []] else [])
    ++ (if indexerFiltered > 0 then
          [MetricOp.add MName.requestWithIndexerCandidatesFilteredCount []] else [])
    ++ (if timeToFirstByte > 0 then
          [MetricOp.add MName.requestWithFirstByteReceivedCount
             [Tag.protocol acc.lowestTTFBProtocol],
           MetricOp.record MName.timeToFirstByte timeToFirstByte
             [Tag.protocol acc.lowestTTFBProtocol]] else [])
  if success then
    let protocol := protocolFromMulticodecString protocolSucceeded
    ops1 ++ [MetricOp.add MName.requestWithSuccessCount []]
      ++ (if protocol = ProtocolBitswap then
            [MetricOp.add MName.requestWithBitswapSuccessCount []]
          else if protocol = ProtocolGraphsync then
            [MetricOp.add MName.requestWithGraphSyncSuccessCount [Tag.spId storageProviderID]]
          else if protocol = ProtocolHttp then
            [MetricOp.add MName.requestWithHttpSuccessCount [Tag.spId storageProviderID]]
          else [])
      ++ [MetricOp.record MName.retrievalDealDuration (endTime - startTime)
            [Tag.protocol protocol],
          MetricOp.record MName.retrievalDealSize bytesTransferred [Tag.protocol protocol],
          MetricOp.record MName.bandwidthBytesPerSecond bandwidth [Tag.protocol protocol],
          MetricOp.record MName.indexerCandidatesPerRequestCount indexerCandidates [],
          MetricOp.record MName.indexerCandidatesFilteredPerRequestCount indexerFiltered [],
          MetricOp.record MName.failedRetrievalsPerRequestCount (Int.ofNat acc.failureCount) []]
  else if attempts.isEmpty then
    ops1 ++ [MetricOp.add MName.requestWithIndexerFailures []]
  else ops1


/-- Deliver a sequence of candidates-found events (event time, reported
count) for one retrieval, in processing order, collecting the emitted
metric updates. -/
def runFoundEvents (m : TempDataMap) (now : Int) (id : String) :
    List (Int × Int) → TempDataMap × List MetricOp
  | [] => (m, [])
  | ev :: rest =>
      let r := HandleCandidatesFoundEvent m now id ev.1
        (some [("candidateCount", JVal.num ev.2)])
      let q := runFoundEvents r.1 now id rest
      (q.1, r.2 ++ q.2)

/-- The sum of the reported candidate counts of a found-event sequence. -/
def sumCounts : List (Int × Int) → Int
  | [] => 0
  | ev :: rest => ev.2 + sumCounts rest

/-- Is this update an increment of one of the error-category counters
(a specific category or the "other" bucket)? -/
def isErrCatOp : MetricOp → Bool
  | MetricOp.add (MName.errCounter _) _ => true
  | MetricOp.add MName.retrievalErrorOtherCount _ => true
  | _ => false

/-- A concrete aggregate record for exercising `HandleAggregatedEvent`:
success over graphsync, one clean attempt and two attempts with distinct
non-empty error messages. -/
def aggAttemptsExample : List (String × Attempt) :=
  [("sp1", ⟨"", TransportGraphsyncFilecoinv1Name, 5⟩),
   ("sp2", ⟨"failed to dial backoff", TransportGraphsyncFilecoinv1Name, 0⟩),
   ("sp3", ⟨"Access Control list", TransportIpfsGatewayHttpName, 0⟩)]

/-- The updates `HandleAggregatedEvent` emits for `aggAttemptsExample`
(source iteration order; indexer results 3 found / 2 filtered, first
byte at 5, transfer of 1234 bytes between times 100 and 400). -/
def aggOpsExample : List MetricOp :=
  HandleAggregatedEvent errorMetricMatches 1 5 true "spX" 100 400 10 1234 3 2
    aggAttemptsExample TransportGraphsyncFilecoinv1Name

lemma recordStartTimeRuns_of_ne_zero (ts : List Int) (d : TempData) (h : d.startTime ≠ 0) :
    recordStartTimeRuns d ts = (d, List.replicate ts.length false) := by
  induction ts with
  | nil => rfl
  | cons t ts ih =>
      have hr : d.RecordStartTime t = (d, false) := by
        simp [TempData.RecordStartTime, h]
      simp [recordStartTimeRuns, hr, ih, List.replicate_succ]

lemma Delete_of_some (m : TempDataMap) (id : String) (e : TempData × Int)
    (h : m.entries id = some e) :
    m.Delete id = (some e.1.finalValues,
      ⟨fun k => if k = id then none else m.entries k, e.1.zeroOut :: m.pool⟩) := by
  simp [TempDataMap.Delete, h]

lemma Delete_of_none (m : TempDataMap) (id : String) (h : m.entries id = none) :
    m.Delete id = (none, m) := by
  simp [TempDataMap.Delete, h]

/-- C4.  For every retrieval identifier present in the state table, the
first `TempDataMap.Delete` removes the entry and returns its computed
summary; a second `Delete` with no intervening get-or-create returns
nothing and leaves the table unchanged, so of two finalize calls exactly
one yields a non-empty summary. -/
theorem Delete_finalize_exactly_once (m : TempDataMap) (id : String) (e : TempData × Int)
    (h : m.entries id = some e) :
    (m.Delete id).1 = some e.1.finalValues ∧
    ((m.Delete id).2).entries id = none ∧
    (((m.Delete id).2).Delete id).1 = none ∧
    (((m.Delete id).2).Delete id).2 = (m.Delete id).2 := by
  rw [Delete_of_some m id e h]
  have h2 : (⟨fun k => if k = id then none else m.entries k,
      e.1.zeroOut :: m.pool⟩ : TempDataMap).entries id = none := by
    simp
  rw [Delete_of_none _ id h2]
  exact ⟨rfl, h2, rfl, rfl⟩

/-- Witness for C4 at a concrete one-entry table. -/
theorem Delete_finalize_exactly_once_witness :
    ((⟨fun k => if k = "r" then some (TempData.zero, 77) else none, []⟩ : TempDataMap).entries "r"
        = some (TempData.zero, 77)) ∧
    (((⟨fun k => if k = "r" then some (TempData.zero, 77) else none, []⟩ : TempDataMap).Delete
        "r").1 = some TempData.zero.finalValues) :=
  ⟨by decide,
   (Delete_finalize_exactly_once
      ⟨fun k => if k = "r" then some (TempData.zero, 77) else none, []⟩
      "r" (TempData.zero, 77) (by decide)).1⟩

/-- C5 counterexample.  The claim says that for started events with
different timestamps, later writes to the start time are no-ops that
report not-first.  But the CAS sentinel is the stored value 0: if the
first-processed event's timestamp is exactly the Unix epoch
(`UnixMicro() = 0`), the first write stores 0, a second write with
timestamp 5 microseconds still succeeds and reports first, and the
recorded start time ends up being the second timestamp. -/
theorem RecordStartTime_epoch_cex :
    ((TempData.zero.RecordStartTime 0).2 = true) ∧
    (((TempData.zero.RecordStartTime 0).1.RecordStartTime 5).2 = true) ∧
    (((TempData.zero.RecordStartTime 0).1.RecordStartTime 5).1.startTimeMicros = 5) := by
  decide

/-- C5 amended.  First write wins for the single-set fields, provided the
first-processed started event's timestamp is not the CAS sentinel
(`UnixMicro() = 0`): the first `RecordStartTime` reports first, every
later call is a no-op reporting not-first and the recorded start time
stays the first timestamp; likewise for `RecordTimeToFirstByte`, and
unconditionally for the bitswap/graphsync attempt flags. -/
theorem first_write_wins_nonzero (t : Int) (ts : List Int) (h : u64ofMicros t ≠ 0) :
    ((TempData.zero.RecordStartTime t).2 = true) ∧
    ((recordStartTimeRuns (TempData.zero.RecordStartTime t).1 ts).1.startTime
        = u64ofMicros t) ∧
    (∀ b ∈ (recordStartTimeRuns (TempData.zero.RecordStartTime t).1 ts).2, b = false) ∧
    (∀ u u' : Int, u64ofMicros u ≠ 0 →
        (((TempData.zero.RecordTimeToFirstByte u).1.RecordTimeToFirstByte u').2 = false ∧
         ((TempData.zero.RecordTimeToFirstByte u).1.RecordTimeToFirstByte u').1.ttfbTime
            = u64ofMicros u)) ∧
    (∀ d : TempData,
        ((d.RecordBitswapAttempt).1.RecordBitswapAttempt).2 = false ∧
        ((d.RecordGraphsyncAttempt).1.RecordGraphsyncAttempt).2 = false) := by
  have h1 : (TempData.zero.RecordStartTime t).1
      = { TempData.zero with startTime := u64ofMicros t } := by
    simp [TempData.RecordStartTime, TempData.zero]
  have hne : ({ TempData.zero with startTime := u64ofMicros t } : TempData).startTime ≠ 0 := by
    simpa using h
  have hrun := recordStartTimeRuns_of_ne_zero ts _ hne
  refine ⟨by simp [TempData.RecordStartTime, TempData.zero], ?_, ?_, ?_, ?_⟩
  · rw [h1, hrun]
  · intro b hb
    rw [h1] at hb
    rw [hrun] at hb
    exact List.eq_of_mem_replicate hb
  · intro u u' hu
    have hu1 : (TempData.zero.RecordTimeToFirstByte u).1
        = { TempData.zero with ttfbTime := u64ofMicros u } := by
      simp [TempData.RecordTimeToFirstByte, TempData.zero]
    rw [hu1]
    constructor
    · simp [TempData.RecordTimeToFirstByte, hu]
    · simp [TempData.RecordTimeToFirstByte, hu]
  · intro d
    constructor
    · by_cases hb : d.bitswapAttempt = 0 <;>
        simp [TempData.RecordBitswapAttempt, hb]
    · by_cases hg : d.graphsyncAttempt = 0 <;>
        simp [TempData.RecordGraphsyncAttempt, hg]

/-- Witness for C5's amended theorem: first timestamp 3 (nonzero micros),
one later event at 9; the start time stays 3. -/
theorem first_write_wins_nonzero_witness :
    u64ofMicros 3 ≠ 0 ∧
    (recordStartTimeRuns (TempData.zero.RecordStartTime 3).1 [9]).1.startTime
      = u64ofMicros 3 :=
  ⟨by decide, (first_write_wins_nonzero 3 [9] (by decide)).2.1⟩

lemma applyTDOp_lastStage (op : TDOp) (d : TempData) :
    (applyTDOp op d).lastStage = d.lastStage := by
  cases op <;>
    simp [applyTDOp, TempData.RecordStartTime, TempData.RecordIndexerCandidates,
      TempData.RecordIndexerFilteredCandidates, TempData.RecordBitswapAttempt,
      TempData.RecordGraphsyncAttempt, TempData.RecordTimeToFirstByte,
      TempData.RecordFailure] <;> split <;> rfl

lemma applyTDOps_lastStage (ops : List TDOp) (d : TempData) :
    (applyTDOps ops d).lastStage = d.lastStage := by
  induction ops generalizing d with
  | nil => rfl
  | cons op ops ih =>
      simpa [applyTDOps, applyTDOp_lastStage] using
        (ih (applyTDOp op d)).trans (applyTDOp_lastStage op d)

lemma zeroOut_eq_zero_of_lastStage (d : TempData) (h : d.lastStage = 0) :
    d.zeroOut = TempData.zero := by
  simp only [TempData.zeroOut, TempData.zero]
  cases d
  simp_all

lemma GetOrCreate_of_some (m : TempDataMap) (id : String) (now : Int) (e : TempData × Int)
    (h : m.entries id = some e) :
    m.GetOrCreate id now = (e.1, m) := by
  simp [TempDataMap.GetOrCreate, h]

lemma GetOrCreate_of_none (m : TempDataMap) (id : String) (now : Int)
    (h : m.entries id = none) :
    m.GetOrCreate id now = (m.pool.headD TempData.zero,
      ⟨fun k => if k = id then some (m.pool.headD TempData.zero, now + timeout)
                else m.entries k,
       m.pool.tail⟩) := by
  simp [TempDataMap.GetOrCreate, h]

/-- C8.  When finalize (`Delete`) removes a state object whose content
was produced by any history of record operations on a fresh zero object,
the object recycled into the pool is fully zeroed, and the state object
that the next inserting `GetOrCreate` (for any identifier not in the
table) hands out of the pool is exactly the zero object: no start time,
candidate count, filtered count, attempt flag, time-to-first-byte,
first-indexer-result time or failure count of the previous retrieval
survives. -/
theorem recycled_state_fully_zeroed (m : TempDataMap) (id idNew : String) (now dl : Int)
    (ops : List TDOp)
    (hid : m.entries id = some (applyTDOps ops TempData.zero, dl))
    (hnew : ((m.Delete id).2).entries idNew = none) :
    (applyTDOps ops TempData.zero).zeroOut = TempData.zero ∧
    (((m.Delete id).2).GetOrCreate idNew now).1 = TempData.zero := by
  have hz : (applyTDOps ops TempData.zero).zeroOut = TempData.zero :=
    zeroOut_eq_zero_of_lastStage _ (by simp [applyTDOps_lastStage, TempData.zero])
  refine ⟨hz, ?_⟩
  rw [Delete_of_some m id _ hid] at hnew ⊢
  rw [GetOrCreate_of_none _ _ _ hnew]
  simp [hz]

/-- Witness for C8: a table holding one entry built by three record
operations; after finalize, the object handed out for a fresh id is zero. -/
theorem recycled_state_fully_zeroed_witness :
    ((⟨fun k => if k = "a" then
          some (applyTDOps [TDOp.rStart 5, TDOp.rFail, TDOp.rBits] TempData.zero, 9)
        else none, []⟩ : TempDataMap).entries "a"
      = some (applyTDOps [TDOp.rStart 5, TDOp.rFail, TDOp.rBits] TempData.zero, 9)) ∧
    ((((⟨fun k => if k = "a" then
          some (applyTDOps [TDOp.rStart 5, TDOp.rFail, TDOp.rBits] TempData.zero, 9)
        else none, []⟩ : TempDataMap).Delete "a").2).GetOrCreate "b" 0).1 = TempData.zero :=
  ⟨by decide,
   (recycled_state_fully_zeroed
      ⟨fun k => if k = "a" then
          some (applyTDOps [TDOp.rStart 5, TDOp.rFail, TDOp.rBits] TempData.zero, 9)
        else none, []⟩
      "a" "b" 0 9 [TDOp.rStart 5, TDOp.rFail, TDOp.rBits] (by decide) (by decide)).2⟩

lemma applyTOp_deadline (m : TempDataMap) (op : TOp) (id : String) (d : TempData) (dl : Int)
    (h : m.entries id = some (d, dl)) :
    ∃ d', (applyTOp m op).entries id = some (d', dl) := by
  cases op with
  | getOrCreate id' now =>
      by_cases hi : id' = id
      · subst hi
        simp only [applyTOp]
        rw [GetOrCreate_of_some m id' now _ h]
        exact ⟨d, h⟩
      · simp only [applyTOp]
        cases he : m.entries id' with
        | some e =>
            rw [GetOrCreate_of_some m id' now e he]
            exact ⟨d, h⟩
        | none =>
            refine ⟨d, ?_⟩
            rw [GetOrCreate_of_none m id' now he]
            simp only
            rw [if_neg (fun hc : id = id' => hi hc.symm)]
            exact h
  | update id' op =>
      by_cases hi : id' = id
      · subst hi
        simp only [applyTOp, h, TempDataMap.setData]
        exact ⟨applyTDOp op d, by simp [h]⟩
      · simp only [applyTOp]
        cases he : m.entries id' with
        | some e =>
            refine ⟨d, ?_⟩
            simp only [TempDataMap.setData]
            rw [if_neg (fun hc : id = id' => hi hc.symm)]
            exact h
        | none => exact ⟨d, h⟩

lemma applyTOps_deadline (ops : List TOp) (m : TempDataMap) (id : String) (d : TempData)
    (dl : Int) (h : m.entries id = some (d, dl)) :
    ∃ d', (applyTOps m ops).entries id = some (d', dl) := by
  induction ops generalizing m d with
  | nil => exact ⟨d, h⟩
  | cons op ops ih =>
      obtain ⟨d1, h1⟩ := applyTOp_deadline m op id d dl h
      exact ih (applyTOp m op) d1 h1

/-- C7.  An entry inserted by `GetOrCreate` at wall-clock `tc` gets its
eviction timer armed exactly once, for the fixed deadline
`tc + timeout` (one minute); any further sequence of get-or-create and
record-update operations leaves that deadline untouched (the timer is
never reset); and the timer firing — the `time.AfterFunc` body, which is
`Delete` — finalizes the entry with the summary of whatever data was
captured, leaving no entry for the identifier in the table. -/
theorem eviction_timer_fixed_deadline (m0 : TempDataMap) (id : String) (tc : Int)
    (ops : List TOp) (h0 : m0.entries id = none) :
    ∃ d, (applyTOps ((m0.GetOrCreate id tc).2) ops).entries id = some (d, tc + timeout) ∧
      ((applyTOps ((m0.GetOrCreate id tc).2) ops).Delete id).1 = some d.finalValues ∧
      (((applyTOps ((m0.GetOrCreate id tc).2) ops).Delete id).2).entries id = none := by
  have h1 : ((m0.GetOrCreate id tc).2).entries id
      = some (m0.pool.headD TempData.zero, tc + timeout) := by
    simp [TempDataMap.GetOrCreate, h0]
  obtain ⟨d, hd⟩ := applyTOps_deadline ops _ id _ _ h1
  refine ⟨d, hd, ?_, ?_⟩
  · rw [Delete_of_some _ id _ hd]
  · rw [Delete_of_some _ id _ hd]
    simp

/-- Witness for C7: creation at time 0, a later get-or-create at time 50
and a start-time update; the deadline stays `0 + timeout` and firing the
timer finalizes. -/
theorem eviction_timer_fixed_deadline_witness :
    ((⟨fun _ => none, []⟩ : TempDataMap).entries "r" = none) ∧
    (∃ d, (applyTOps (((⟨fun _ => none, []⟩ : TempDataMap).GetOrCreate "r" 0).2)
            [TOp.getOrCreate "r" 50, TOp.update "r" (TDOp.rStart 7)]).entries "r"
          = some (d, 0 + timeout) ∧
      ((applyTOps (((⟨fun _ => none, []⟩ : TempDataMap).GetOrCreate "r" 0).2)
            [TOp.getOrCreate "r" 50, TOp.update "r" (TDOp.rStart 7)]).Delete "r").1
          = some d.finalValues ∧
      (((applyTOps (((⟨fun _ => none, []⟩ : TempDataMap).GetOrCreate "r" 0).2)
            [TOp.getOrCreate "r" 50, TOp.update "r" (TDOp.rStart 7)]).Delete "r").2).entries "r"
          = none) :=
  ⟨rfl, eviction_timer_fixed_deadline ⟨fun _ => none, []⟩ "r" 0
      [TOp.getOrCreate "r" 50, TOp.update "r" (TDOp.rStart 7)] rfl⟩

/-- C1.  The failure message "timeout after failed to dial" contains two
of the table's substrings.  `getMatchingErrorMetric` iterates a Go map,
so the loop's iteration order is not fixed: under the source-literal
order the message is classified as a timeout error, under the reverse
order (an equally valid iteration order of the same map) as a
failed-to-dial error.  The classification is therefore not the claimed
fixed-priority first-match rule: the same message does not always yield
the same category. -/
theorem getMatchingErrorMetric_order_dependent :
    List.Perm errorMetricMatches.reverse errorMetricMatches ∧
    getMatchingErrorMetric errorMetricMatches "timeout after failed to dial"
      = some ErrCat.timedOut ∧
    getMatchingErrorMetric errorMetricMatches.reverse "timeout after failed to dial"
      = some ErrCat.failedToDial :=
  ⟨List.reverse_perm errorMetricMatches, by decide, by decide⟩

/-- C2 counterexample.  A retrieval-phase success event whose detail
payload has no `receivedSize` field does NOT finalize the retrieval: the
handler returns before touching the state table, the entry stays, and no
counter (success or otherwise) is updated — contradicting the claim that
the event is still handled, the entry removed and the success counters
incremented, with only the size-derived updates skipped. -/
theorem HandleSuccessEvent_missing_size_cex :
    ((HandleSuccessEvent
        ⟨fun k => if k = "r" then some (TempData.zero, 100) else none, []⟩
        0 "r" 50 "sp" (some [("other", JVal.num 3)])).1.entries "r"
      = some (TempData.zero, 100)) ∧
    ((HandleSuccessEvent
        ⟨fun k => if k = "r" then some (TempData.zero, 100) else none, []⟩
        0 "r" 50 "sp" (some [("other", JVal.num 3)])).2 = []) := by
  constructor
  · rfl
  · rfl

/-- C2 amended.  A success event finalizes the retrieval — removes the
table entry and increments the overall success counter — exactly when its
detail payload is a map carrying a numeric `receivedSize`; when that
field is absent or of the wrong shape, the handler returns with the table
untouched and no metric update at all (so not even the non-size-derived
updates happen, and the retrieval is not finalized). -/
theorem HandleSuccessEvent_finalizes_iff_size (m : TempDataMap) (now : Int) (id : String)
    (t : Int) (spid : String) (det : Details) :
    (detailsNum det "receivedSize" = none →
        HandleSuccessEvent m now id t spid det = (m, [])) ∧
    (∀ sz, detailsNum det "receivedSize" = some sz →
        (HandleSuccessEvent m now id t spid det).1.entries id = none ∧
        MetricOp.add MName.requestWithSuccessCount []
          ∈ (HandleSuccessEvent m now id t spid det).2) := by
  constructor
  · intro h
    simp [HandleSuccessEvent, h]
  · intro sz h
    cases he : m.entries id with
    | some e =>
        rw [HandleSuccessEvent, h]
        simp only [GetOrCreate_of_some m id now e he, Delete_of_some m id e he]
        exact ⟨by simp, by simp⟩
    | none =>
        rw [HandleSuccessEvent, h]
        rw [GetOrCreate_of_none m id now he]
        simp only
        rw [Delete_of_some _ id (m.pool.headD TempData.zero, now + timeout) (by simp)]
        exact ⟨by simp, by simp⟩

/-- Witness for C2's amended theorem at a payload that does carry
`receivedSize`. -/
theorem HandleSuccessEvent_finalizes_iff_size_witness :
    detailsNum (some [("receivedSize", JVal.num 9)]) "receivedSize" = some 9 ∧
    (HandleSuccessEvent ⟨fun _ => none, []⟩ 0 "r" 50 "sp"
        (some [("receivedSize", JVal.num 9)])).1.entries "r" = none :=
  ⟨by decide,
   ((HandleSuccessEvent_finalizes_iff_size ⟨fun _ => none, []⟩ 0 "r" 50 "sp"
       (some [("receivedSize", JVal.num 9)])).2 9 (by decide)).1⟩

/-- C3.  A retrieval-phase failed event leaves the state table completely
untouched — in particular the entry stays, but its failure count is NOT
incremented, because the handler's retrieval branch never calls
`RecordFailure` (that method is dead code).  After two retrieval-phase
failures and a terminal success, the failures-per-request histogram
sample recorded at finalize is 0, not 2. -/
theorem HandleFailureEvent_never_increments_failedCount :
    ((HandleFailureEvent errorMetricMatches
        ((HandleStartedEvent ⟨fun _ => none, []⟩ 0 "r" Phase.IndexerPhase 10 "").1)
        1 "r" Phase.RetrievalPhase "sp" (some [("error", JVal.str "boom")])).1.entries "r"
      = (HandleStartedEvent ⟨fun _ => none, []⟩ 0 "r" Phase.IndexerPhase 10 "").1.entries "r") ∧
    ((HandleFailureEvent errorMetricMatches
        (HandleFailureEvent errorMetricMatches
          ((HandleStartedEvent ⟨fun _ => none, []⟩ 0 "r" Phase.IndexerPhase 10 "").1)
          1 "r" Phase.RetrievalPhase "sp" (some [("error", JVal.str "boom")])).1
        2 "r" Phase.RetrievalPhase "sp" (some [("error", JVal.str "boom")])).1.entries "r"
      = (HandleStartedEvent ⟨fun _ => none, []⟩ 0 "r" Phase.IndexerPhase 10 "").1.entries "r") ∧
    (MetricOp.record MName.failedRetrievalsPerRequestCount 0 []
      ∈ (HandleSuccessEvent
          (HandleFailureEvent errorMetricMatches
            (HandleFailureEvent errorMetricMatches
              ((HandleStartedEvent ⟨fun _ => none, []⟩ 0 "r" Phase.IndexerPhase 10 "").1)
              1 "r" Phase.RetrievalPhase "sp" (some [("error", JVal.str "boom")])).1
            2 "r" Phase.RetrievalPhase "sp" (some [("error", JVal.str "boom")])).1
          3 "r" 20 "sp" (some [("receivedSize", JVal.num 100)])).2) := by
  refine ⟨rfl, rfl, ?_⟩
  decide

/-- C9.  On a successful aggregate record with two errored attempts the
handler emits the claimed deal-duration sample (end minus start), the
claimed deal-size sample (the transferred byte count) and one
error-category increment per errored attempt — but the
failures-per-request histogram sample it records is 0, not 2, because
the loop executes `failureCount += 0`. -/
theorem HandleAggregatedEvent_failure_count_zero :
    ((aggAttemptsExample.filter (fun pr => pr.2.Error != "")).length = 2) ∧
    (MetricOp.record MName.retrievalDealDuration 300 [Tag.protocol ProtocolGraphsync]
      ∈ aggOpsExample) ∧
    (MetricOp.record MName.retrievalDealSize 1234 [Tag.protocol ProtocolGraphsync]
      ∈ aggOpsExample) ∧
    ((aggOpsExample.filter isErrCatOp).length = 2) ∧
    (opsNamed MName.failedRetrievalsPerRequestCount aggOpsExample
      = [MetricOp.record MName.failedRetrievalsPerRequestCount 0 []]) := by
  refine ⟨by decide, ?_, ?_, ?_, ?_⟩ <;> decide

/-- C6 counterexample.  Two candidates-found events reporting 2^31
candidates each: the aggregated `uint32` count wraps around to 0 instead
of the claimed sum 2^32. -/
theorem RecordIndexerCandidates_overflow_cex :
    (((runFoundEvents
        ⟨fun k => if k = "r" then some ({ TempData.zero with startTime := 1 }, 100) else none,
         []⟩
        0 "r" [(2, 2 ^ 31), (3, 2 ^ 31)]).1.entries "r").map
          (fun e => e.1.indexerCandidates) = some 0) ∧
    sumCounts [((2 : Int), (2 : Int) ^ 31), (3, 2 ^ 31)] = 2 ^ 32 ∧
    (0 : Int) ≠ 2 ^ 32 := by
  refine ⟨by decide, by decide, by decide⟩

lemma setData_entries_self (m : TempDataMap) (id : String) (d : TempData) :
    (m.setData id d).entries id = (m.entries id).map (fun e => (d, e.2)) := by
  simp [TempDataMap.setData]

lemma sumCounts_nonneg (l : List (Int × Int)) (h : ∀ ev ∈ l, 1 ≤ ev.2) :
    0 ≤ sumCounts l := by
  induction l with
  | nil => simp [sumCounts]
  | cons ev rest ih =>
      have h1 := h ev (by simp)
      have h2 := ih (fun e he => h e (by simp [he]))
      simp only [sumCounts]
      linarith

lemma detailsNum_candidateCount (c : Int) :
    detailsNum (some [("candidateCount", JVal.num c)]) "candidateCount" = some c := by
  simp [detailsNum, getJField]

lemma handleFound_not_first (m : TempDataMap) (now : Int) (id : String) (d : TempData)
    (dl : Int) (t c : Int) (hm : m.entries id = some (d, dl))
    (hd : d.indexerCandidates ≠ 0) (hc : 0 < c) :
    HandleCandidatesFoundEvent m now id t (some [("candidateCount", JVal.num c)])
      = (m.setData id
          { d with indexerCandidates := (d.indexerCandidates + u32ofInt c) % 2 ^ 32 }, []) := by
  simp [HandleCandidatesFoundEvent, detailsNum_candidateCount, hc,
    GetOrCreate_of_some m id now (d, dl) hm, TempData.RecordIndexerCandidates, hd]

lemma handleFound_first (m : TempDataMap) (now : Int) (id : String) (d : TempData)
    (dl : Int) (t c : Int) (hm : m.entries id = some (d, dl))
    (hd : d.indexerCandidates = 0) (hc : 0 < c) :
    HandleCandidatesFoundEvent m now id t (some [("candidateCount", JVal.num c)])
      = (m.setData id
          { d with indexerCandidates := u32ofInt c % 2 ^ 32,
                   indexerCandidateFirstResultTime := u64ofMicros t },
         [MetricOp.add MName.requestWithIndexerCandidatesCount [],
          MetricOp.record MName.timeToFirstIndexerResult (t - d.startTimeMicros) []]) := by
  simp [HandleCandidatesFoundEvent, detailsNum_candidateCount, hc,
    GetOrCreate_of_some m id now (d, dl) hm, TempData.RecordIndexerCandidates, hd,
    TempData.startTimeMicros]

lemma runFound_silent (now : Int) (id : String) :
    ∀ (rest : List (Int × Int)) (m : TempDataMap) (d : TempData) (dl : Int),
      m.entries id = some (d, dl) → d.indexerCandidates ≠ 0 →
      (∀ ev ∈ rest, 1 ≤ ev.2) →
      (d.indexerCandidates : Int) + sumCounts rest < 2 ^ 32 →
      (runFoundEvents m now id rest).2 = [] ∧
      ∃ d', (runFoundEvents m now id rest).1.entries id = some (d', dl) ∧
        (d'.indexerCandidates : Int) = (d.indexerCandidates : Int) + sumCounts rest := by
  intro rest
  induction rest with
  | nil =>
      intro m d dl hm hd _ _
      exact ⟨rfl, d, hm, by simp [sumCounts, runFoundEvents]⟩
  | cons ev rest ih =>
      intro m d dl hm hd hall hbound
      obtain ⟨t, c⟩ := ev
      have hc : 1 ≤ c := hall (t, c) (by simp)
      have hrest : ∀ e ∈ rest, 1 ≤ e.2 := fun e he => hall e (by simp [he])
      have hsum' : 0 ≤ sumCounts rest := sumCounts_nonneg rest hrest
      have hcnt1 : 1 ≤ d.indexerCandidates := Nat.one_le_iff_ne_zero.mpr hd
      have hscons : sumCounts ((t, c) :: rest) = c + sumCounts rest := rfl
      rw [hscons] at hbound
      have hclt : c < 2 ^ 32 := by
        have : (1 : Int) ≤ (d.indexerCandidates : Int) := by exact_mod_cast hcnt1
        linarith
      have hctoNat : ((c.toNat : Int)) = c := Int.toNat_of_nonneg (by linarith)
      have hu32 : u32ofInt c = c.toNat := by
        rw [u32ofInt]
        exact Nat.mod_eq_of_lt (by zify; rw [hctoNat]; linarith)
      have hlt : d.indexerCandidates + c.toNat < 2 ^ 32 := by
        zify
        rw [hctoNat]
        linarith
      have hstep := handleFound_not_first m now id d dl t c hm hd (by linarith)
      set d2 : TempData :=
        { d with indexerCandidates := (d.indexerCandidates + u32ofInt c) % 2 ^ 32 } with hd2
      have hd2cnt : d2.indexerCandidates = d.indexerCandidates + c.toNat := by
        rw [hd2]
        simp only [hu32]
        exact Nat.mod_eq_of_lt hlt
      have hm2 : (m.setData id d2).entries id = some (d2, dl) := by
        rw [setData_entries_self, hm]
        rfl
      have hd2ne : d2.indexerCandidates ≠ 0 := by
        rw [hd2cnt]
        omega
      have hbound2 : (d2.indexerCandidates : Int) + sumCounts rest < 2 ^ 32 := by
        rw [hd2cnt]
        push_cast
        rw [hctoNat]
        linarith
      obtain ⟨hops, d', hent, hcnt⟩ := ih (m.setData id d2) d2 dl hm2 hd2ne hrest hbound2
      refine ⟨?_, d', ?_, ?_⟩
      · simp [runFoundEvents, hstep, hops]
      · simp only [runFoundEvents, hstep]
        exact hent
      · rw [hcnt, hd2cnt, hscons]
        push_cast
        rw [hctoNat]
        ring

/-- C6 amended.  For a retrieval whose state entry has not yet seen a
found-event, a sequence of candidates-found events whose reported counts
are at least 1 and sum to less than 2^32 accumulates the exact sum of the
counts (duplicates included) in the entry; exactly one
time-to-first-indexer-result sample is emitted, equal to the event time of
the first-processed found-event minus the recorded start time; and the
with-candidates counter is incremented exactly once.  (Without the bound
the `uint32` count wraps, see the counterexample.) -/
theorem candidates_accumulate_and_single_first_sample (m : TempDataMap) (now : Int)
    (id : String) (d0 : TempData) (dl : Int) (t1 c1 : Int) (rest : List (Int × Int))
    (hm : m.entries id = some (d0, dl)) (h0 : d0.indexerCandidates = 0)
    (hc1 : 1 ≤ c1) (hall : ∀ ev ∈ rest, 1 ≤ ev.2)
    (hsum : c1 + sumCounts rest < 2 ^ 32) :
    (∃ d', (runFoundEvents m now id ((t1, c1) :: rest)).1.entries id = some (d', dl) ∧
        (d'.indexerCandidates : Int) = c1 + sumCounts rest) ∧
    opsNamed MName.timeToFirstIndexerResult (runFoundEvents m now id ((t1, c1) :: rest)).2
      = [MetricOp.record MName.timeToFirstIndexerResult (t1 - d0.startTimeMicros) []] ∧
    opsNamed MName.requestWithIndexerCandidatesCount
        (runFoundEvents m now id ((t1, c1) :: rest)).2
      = [MetricOp.add MName.requestWithIndexerCandidatesCount []] := by
  have hsum' : 0 ≤ sumCounts rest := sumCounts_nonneg rest hall
  have hc1toNat : ((c1.toNat : Int)) = c1 := Int.toNat_of_nonneg (by linarith)
  have hc1natlt : c1.toNat < 2 ^ 32 := by
    zify
    rw [hc1toNat]
    linarith
  have hu32 : u32ofInt c1 = c1.toNat := by
    rw [u32ofInt]
    exact Nat.mod_eq_of_lt hc1natlt
  have hstep := handleFound_first m now id d0 dl t1 c1 hm h0 (by linarith)
  set d1 : TempData :=
    { d0 with indexerCandidates := u32ofInt c1 % 2 ^ 32,
              indexerCandidateFirstResultTime := u64ofMicros t1 } with hd1
  have hd1cnt : d1.indexerCandidates = c1.toNat := by
    simp only [hd1, hu32]
    exact Nat.mod_eq_of_lt hc1natlt
  have hm1 : (m.setData id d1).entries id = some (d1, dl) := by
    rw [setData_entries_self, hm]
    rfl
  have hd1ne : d1.indexerCandidates ≠ 0 := by
    have : 1 ≤ c1.toNat := by
      zify
      rw [hc1toNat]
      linarith
    rw [hd1cnt]
    omega
  have hbound1 : (d1.indexerCandidates : Int) + sumCounts rest < 2 ^ 32 := by
    rw [hd1cnt, hc1toNat]
    linarith
  obtain ⟨hops, d', hent, hcnt⟩ :=
    runFound_silent now id rest (m.setData id d1) d1 dl hm1 hd1ne hall hbound1
  refine ⟨⟨d', ?_, ?_⟩, ?_, ?_⟩
  · simp only [runFoundEvents, hstep]
    exact hent
  · rw [hcnt, hd1cnt, hc1toNat]
  · simp [runFoundEvents, hstep, hops, opsNamed, MetricOp.name]
  · simp [runFoundEvents, hstep, hops, opsNamed, MetricOp.name]

/-- Witness for C6's amended theorem: two found-events with counts 3 and
4 against an entry whose start time is 10. -/
theorem candidates_accumulate_and_single_first_sample_witness :
    ((⟨fun k => if k = "r" then some ({ TempData.zero with startTime := 10 }, 999) else none,
        []⟩ : TempDataMap).entries "r"
      = some ({ TempData.zero with startTime := 10 }, 999)) ∧
    ((∃ d', (runFoundEvents
          ⟨fun k => if k = "r" then some ({ TempData.zero with startTime := 10 }, 999) else none,
           []⟩ 0 "r" [(12, 3), (13, 4)]).1.entries "r" = some (d', 999) ∧
        (d'.indexerCandidates : Int) = 3 + sumCounts [(13, 4)]) ∧
     opsNamed MName.timeToFirstIndexerResult
        (runFoundEvents
          ⟨fun k => if k = "r" then some ({ TempData.zero with startTime := 10 }, 999) else none,
           []⟩ 0 "r" [(12, 3), (13, 4)]).2
      = [MetricOp.record MName.timeToFirstIndexerResult
          (12 - ({ TempData.zero with startTime := 10 } : TempData).startTimeMicros) []] ∧
     opsNamed MName.requestWithIndexerCandidatesCount
        (runFoundEvents
          ⟨fun k => if k = "r" then some ({ TempData.zero with startTime := 10 }, 999) else none,
           []⟩ 0 "r" [(12, 3), (13, 4)]).2
      = [MetricOp.add MName.requestWithIndexerCandidatesCount []]) :=
  ⟨by decide,
   candidates_accumulate_and_single_first_sample
     ⟨fun k => if k = "r" then some ({ TempData.zero with startTime := 10 }, 999) else none, []⟩
     0 "r" ({ TempData.zero with startTime := 10 }) 999 12 3 [(13, 4)]
     (by decide) (by decide) (by decide) (by decide) (by decide)⟩

lemma protocolFromSpID_ne_http (s : String) : protocolFromSpID s ≠ ProtocolHttp := by
  rw [protocolFromSpID]
  split
  · decide
  · decide

lemma opsProtocolValues_append (a b : List MetricOp) :
    opsProtocolValues (a ++ b) = opsProtocolValues a ++ opsProtocolValues b := by
  induction a with
  | nil => rfl
  | cons op rest ih => simp [opsProtocolValues, ih]

/-- C10.  Protocol tagging on the discrete-event path is two-valued: the
bitswap identifier maps to the bitswap tag and every other
storage-provider identifier — the empty string included — maps to the
graphsync tag; consequently no protocol tag emitted by the event-path
failure, first-byte or success handlers ever equals the http tag. -/
theorem protocolFromSpID_two_valued_no_http :
    protocolFromSpID BitswapIndentifier = ProtocolBitswap ∧
    protocolFromSpID "" = ProtocolGraphsync ∧
    (∀ s, s ≠ BitswapIndentifier → protocolFromSpID s = ProtocolGraphsync) ∧
    (∀ ord m now id ph spid det,
        (opsProtocolValues (HandleFailureEvent ord m now id ph spid det).2).all
          (fun p => p != ProtocolHttp) = true) ∧
    (∀ m now id spid t,
        (opsProtocolValues (HandleTimeToFirstByteEvent m now id spid t).2).all
          (fun p => p != ProtocolHttp) = true) ∧
    (∀ m now id t spid det,
        (opsProtocolValues (HandleSuccessEvent m now id t spid det).2).all
          (fun p => p != ProtocolHttp) = true) := by
  refine ⟨by decide, by decide, ?_, ?_, ?_, ?_⟩
  · intro s hs
    simp [protocolFromSpID, hs]
  · intro ord m now id ph spid det
    cases hdet : detailsStr det "error" with
    | none => simp [HandleFailureEvent, hdet, opsProtocolValues]
    | some msg =>
        cases ph with
        | IndexerPhase =>
            simp [HandleFailureEvent, hdet, opsProtocolValues, MetricOp.protocolValues,
              Tag.protocolValues]
        | QueryPhase => simp [HandleFailureEvent, hdet, opsProtocolValues]
        | RetrievalPhase =>
            cases hmatch : getMatchingErrorMetric ord msg with
            | none =>
                by_cases hsp : spid = BitswapIndentifier <;>
                  simp [HandleFailureEvent, hdet, hmatch, hsp, opsProtocolValues,
                    opsProtocolValues_append, MetricOp.protocolValues, Tag.protocolValues,
                    protocolFromSpID_ne_http, bne_iff_ne]
            | some c =>
                by_cases hsp : spid = BitswapIndentifier <;>
                  simp [HandleFailureEvent, hdet, hmatch, hsp, opsProtocolValues,
                    opsProtocolValues_append, MetricOp.protocolValues, Tag.protocolValues,
                    protocolFromSpID_ne_http, bne_iff_ne]
  · intro m now id spid t
    rw [HandleTimeToFirstByteEvent]
    split
    · simp [opsProtocolValues, MetricOp.protocolValues, Tag.protocolValues,
        protocolFromSpID_ne_http, bne_iff_ne]
    · simp [opsProtocolValues]
  · intro m now id t spid det
    cases hdet : detailsNum det "receivedSize" with
    | none => simp [HandleSuccessEvent, hdet, opsProtocolValues]
    | some sz =>
        by_cases hsp : spid = BitswapIndentifier <;>
          simp [HandleSuccessEvent, hdet, hsp, opsProtocolValues, opsProtocolValues_append,
            MetricOp.protocolValues, Tag.protocolValues, protocolFromSpID_ne_http, bne_iff_ne]

/-- Witness for C10 at a concrete non-bitswap identifier. -/
theorem protocolFromSpID_two_valued_no_http_witness :
    "sp9" ≠ BitswapIndentifier ∧ protocolFromSpID "sp9" = ProtocolGraphsync :=
  ⟨by decide, protocolFromSpID_two_valued_no_http.2.2.1 "sp9" (by decide)⟩
